import Mathlib

/-!
Shallow embedding of the shopping-cart server (`src/index.js`).

The server keeps two in-memory maps: a fixed product catalog keyed by
normalized tag identifier, and a cart store keyed by cart id.  Handlers
mutate only the cart store.  Timestamps (`new Date().toISOString()`,
`Date.now()`) are modelled as a `Nat` clock value passed into each
operation; item `scannedAt`, cart `createdAt`, receipt ids and checkout
times all record the clock at the moment the handler ran.
-/

namespace ShoppingCart

/-- A catalog product (`products[tag]` in `src/index.js`). -/
structure Product where
  name : String
  price : Int
  category : String
deriving Repr, DecidableEq

/-- An item pushed onto `cart.items` by the scan handler. -/
structure CartItem where
  tag_id : String
  name : String
  price : Int
  category : String
  scannedAt : Nat
deriving Repr, DecidableEq

/-- A cart record as created by `getCart` / the clear and checkout handlers. -/
structure Cart where
  id : String
  items : List CartItem
  total : Int
  createdAt : Nat
deriving Repr, DecidableEq

/-- The server's mutable/global state: the `products` object and the
`carts` object.  JS objects are partial maps from string keys. -/
structure ServerState where
  products : String → Option Product
  carts : String → Option Cart

/-- The fixed catalog literal from the top of `src/index.js`. -/
def initialProducts : String → Option Product := fun tag =>
  if tag = "A1B2C3D4" then some ⟨"Milk (1L)", 40, "Dairy"⟩
  else if tag = "11223344" then some ⟨"Bread (White)", 30, "Bakery"⟩
  else if tag = "55667788" then some ⟨"Rice (1kg)", 65, "Grains"⟩
  else if tag = "AABBCCDD" then some ⟨"Eggs (6 pcs)", 48, "Dairy"⟩
  else if tag = "99887766" then some ⟨"Butter (100g)", 55, "Dairy"⟩
  else if tag = "DEADBEEF" then some ⟨"Apple Juice (500ml)", 80, "Beverages"⟩
  else if tag = "CAFEBABE" then some ⟨"Biscuits (200g)", 25, "Snacks"⟩
  else if tag = "F00DCAFE" then some ⟨"Chips (150g)", 35, "Snacks"⟩
  else none

/-- Process start: full catalog, empty cart store (`const carts = {}`). -/
def initialState : ServerState :=
  { products := initialProducts, carts := fun _ => none }

/-- Store update `carts[cartId] = c` — replace one entry of the cart store. -/
def ServerState.setCart (st : ServerState) (cartId : String) (c : Cart) : ServerState :=
  { st with carts := fun k => if k = cartId then some c else st.carts k }

/-- Function `getCart(cartId)`: return the existing cart, or lazily create an empty
one (also storing it) when the id is absent. -/
def getCart (st : ServerState) (cartId : String) (now : Nat) : Cart × ServerState :=
  match st.carts cartId with
  | some c => (c, st)
  | none =>
      let c : Cart := { id := cartId, items := [], total := 0, createdAt := now }
      (c, st.setCart cartId c)

/-- JS `tag.toUpperCase()`: uppercase every character. -/
def jsToUpperCase (s : String) : String := ⟨s.data.map Char.toUpper⟩

/-- JS `s.replace(/\s+/g, "")`: delete every whitespace character. -/
def jsStripWhitespace (s : String) : String :=
  ⟨s.data.filter (fun c => !c.isWhitespace)⟩

/-- Normalization `tag_id.toUpperCase().replace(/\s+/g, "")` from the scan handler. -/
def normalizeTag (s : String) : String := jsStripWhitespace (jsToUpperCase s)

/-- Spec 4.1, modelled from the spec's words: "Transform: uppercase,
remove all whitespace."  Kept separate from `normalizeTag` (which is
translated from the code) so the two can be compared. -/
def specNormalizeTag (s : String) : String :=
  ⟨(s.data.map Char.toUpper).filter (fun c => !c.isWhitespace)⟩

/-- JS `Array.prototype.findIndex`: index of the first element satisfying
the predicate, `none` standing for `-1`. -/
def jsFindIndex {α : Type} (p : α → Bool) : List α → Option Nat
  | [] => none
  | x :: xs => if p x then some 0 else (jsFindIndex p xs).map (· + 1)

/-- JS `arr.splice(i, 1)`: drop the element at index `i`. -/
def jsSplice1 {α : Type} : List α → Nat → List α
  | [], _ => []
  | _ :: xs, 0 => xs
  | x :: xs, n + 1 => x :: jsSplice1 xs n

/-- The `action` field of the scan/simulate response. -/
inductive ScanAction
  | added
  | removed
deriving Repr, DecidableEq

/-- Success payload of the scan/simulate response. -/
structure ScanOk where
  action : ScanAction
  product : String
  price : Int
  cart_total : Int
  cart_items : Nat
  cart : Cart
deriving Repr, DecidableEq

/-- Outcome of `POST /api/scan` (and `GET /api/simulate/:tagId`). -/
inductive ScanResult
  /-- HTTP 400 with error message "tag_id is required" -/
  | invalidInput
  /-- HTTP 404 with error message "Unknown product" -/
  | unknownProduct
  /-- HTTP 200 with the toggle response body -/
  | ok (r : ScanOk)
deriving Repr, DecidableEq

/-- The toggle core of the scan handler, after the `tag_id` guard: catalog
lookup, lazy cart fetch, find/splice-or-push, response assembly. -/
def scanToggle (st : ServerState) (normalizedTag cartId : String) (now : Nat) :
    ScanResult × ServerState :=
  match st.products normalizedTag with
  | none => (ScanResult.unknownProduct, st)
  | some product =>
      let pair := getCart st cartId now
      let cart := pair.1
      let st1 := pair.2
      match jsFindIndex (fun item => item.tag_id == normalizedTag) cart.items with
      | some idx =>
          let cart2 : Cart :=
            { cart with
              items := jsSplice1 cart.items idx
              total := cart.total - product.price }
          (ScanResult.ok
            { action := ScanAction.removed, product := product.name,
              price := product.price, cart_total := cart2.total,
              cart_items := cart2.items.length, cart := cart2 },
           st1.setCart cartId cart2)
      | none =>
          let newItem : CartItem :=
            { tag_id := normalizedTag, name := product.name,
              price := product.price, category := product.category,
              scannedAt := now }
          let cart2 : Cart :=
            { cart with
              items := cart.items ++ [newItem]
              total := cart.total + product.price }
          (ScanResult.ok
            { action := ScanAction.added, product := product.name,
              price := product.price, cart_total := cart2.total,
              cart_items := cart2.items.length, cart := cart2 },
           st1.setCart cartId cart2)

/-- Handler for `POST /api/scan`.  `tag_id` is `none` when the body field is absent;
the JS falsiness guard `if (!tag_id)` also rejects the empty string.
`cart_id` defaults to `"default"` when absent. -/
def scan (tag_id : Option String) (cart_id : Option String) (now : Nat)
    (st : ServerState) : ScanResult × ServerState :=
  let cartId := cart_id.getD "default"
  match tag_id with
  | none => (ScanResult.invalidInput, st)
  | some raw =>
      if raw = "" then (ScanResult.invalidInput, st)
      else scanToggle st (normalizeTag raw) cartId now

/-- Handler for `GET /api/cart/:cartId`: side-effecting read via `getCart`. -/
def getCartRoute (cartId : String) (now : Nat) (st : ServerState) :
    Cart × ServerState :=
  getCart st cartId now

/-- Handler for `POST /api/cart/:cartId/clear`: unconditionally overwrite the entry
with a fresh empty cart and return it. -/
def clearCart (cartId : String) (now : Nat) (st : ServerState) :
    Cart × ServerState :=
  let fresh : Cart := { id := cartId, items := [], total := 0, createdAt := now }
  (fresh, st.setCart cartId fresh)

/-- The receipt built by the checkout handler (`receiptId` is the
`Date.now()` value behind `RCP-${Date.now()}`). -/
structure Receipt where
  receiptId : Nat
  items : List CartItem
  total : Int
  itemCount : Nat
  checkoutTime : Nat
deriving Repr, DecidableEq

/-- Outcome of `POST /api/cart/:cartId/checkout`. -/
inductive CheckoutResult
  /-- HTTP 400 with error message "Cart is empty" -/
  | emptyCart
  /-- HTTP 200 with the receipt -/
  | ok (r : Receipt)
deriving Repr, DecidableEq

/-- Handler for `POST /api/cart/:cartId/checkout`.  Note the handler calls `getCart`
before the empty check, so an absent cart id gets an entry created even on
the 400 path. -/
def checkout (cartId : String) (now : Nat) (st : ServerState) :
    CheckoutResult × ServerState :=
  let pair := getCart st cartId now
  let cart := pair.1
  let st1 := pair.2
  if cart.items.length = 0 then (CheckoutResult.emptyCart, st1)
  else
    let receipt : Receipt :=
      { receiptId := now, items := cart.items, total := cart.total,
        itemCount := cart.items.length, checkoutTime := now }
    (CheckoutResult.ok receipt,
     st1.setCart cartId { id := cartId, items := [], total := 0, createdAt := now })

/-- Handler for `GET /api/simulate/:tagId`: the handler's own inline copy of the
toggle logic, with the cart fixed to `"default"` and the tag taken from
the path (a path segment, hence never empty). -/
def simulate (tagId : String) (now : Nat) (st : ServerState) :
    ScanResult × ServerState :=
  let normalizedTag := normalizeTag tagId
  match st.products normalizedTag with
  | none => (ScanResult.unknownProduct, st)
  | some product =>
      let pair := getCart st "default" now
      let cart := pair.1
      let st1 := pair.2
      match jsFindIndex (fun item => item.tag_id == normalizedTag) cart.items with
      | some idx =>
          let cart2 : Cart :=
            { cart with
              items := jsSplice1 cart.items idx
              total := cart.total - product.price }
          (ScanResult.ok
            { action := ScanAction.removed, product := product.name,
              price := product.price, cart_total := cart2.total,
              cart_items := cart2.items.length, cart := cart2 },
           st1.setCart "default" cart2)
      | none =>
          let newItem : CartItem :=
            { tag_id := normalizedTag, name := product.name,
              price := product.price, category := product.category,
              scannedAt := now }
          let cart2 : Cart :=
            { cart with
              items := cart.items ++ [newItem]
              total := cart.total + product.price }
          (ScanResult.ok
            { action := ScanAction.added, product := product.name,
              price := product.price, cart_total := cart2.total,
              cart_items := cart2.items.length, cart := cart2 },
           st1.setCart "default" cart2)

/-- One client-visible mutating/reading operation on the cart store, as
named by the spec's reachability claims: scan, cart retrieval, clear,
checkout. -/
inductive Op
  | scanOp (tag_id : Option String) (cart_id : Option String) (now : Nat)
  | getCartOp (cartId : String) (now : Nat)
  | clearOp (cartId : String) (now : Nat)
  | checkoutOp (cartId : String) (now : Nat)

/-- The state transition an operation performs (response discarded). -/
def applyOp (op : Op) (st : ServerState) : ServerState :=
  match op with
  | Op.scanOp t c now => (scan t c now st).2
  | Op.getCartOp id now => (getCartRoute id now st).2
  | Op.clearOp id now => (clearCart id now st).2
  | Op.checkoutOp id now => (checkout id now st).2

/-- Run a sequence of operations from a state. -/
def runOps (ops : List Op) (st : ServerState) : ServerState :=
  ops.foldl (fun s op => applyOp op s) st

/-- A server state reachable from process start by some request sequence. -/
def Reachable (st : ServerState) : Prop :=
  ∃ ops : List Op, st = runOps ops initialState

/-- Total of a cart entry, `0` for an absent id. -/
def cartTotal (st : ServerState) (id : String) : Int :=
  (st.carts id).elim 0 Cart.total

/-- Item count of a cart entry, `0` for an absent id. -/
def cartCount (st : ServerState) (id : String) : Nat :=
  (st.carts id).elim 0 (fun c => c.items.length)

/-! ### Basic lemmas about the store primitives -/

theorem setCart_products (st : ServerState) (id : String) (c : Cart) :
    (st.setCart id c).products = st.products := rfl

theorem setCart_self (st : ServerState) (id : String) (c : Cart) :
    (st.setCart id c).carts id = some c := by
  simp [ServerState.setCart]

theorem setCart_other (st : ServerState) (id : String) (c : Cart)
    (k : String) (hk : k ≠ id) : (st.setCart id c).carts k = st.carts k := by
  simp [ServerState.setCart, hk]

theorem jsFindIndex_eq_none {α : Type} (p : α → Bool) :
    ∀ l : List α, jsFindIndex p l = none ↔ ∀ x ∈ l, p x = false := by
  intro l
  induction l with
  | nil => simp [jsFindIndex]
  | cons x xs ih =>
      by_cases hx : p x
      · simp [jsFindIndex, hx]
      · simp [jsFindIndex, hx, ih]


theorem jsFindIndex_some {α : Type} (p : α → Bool) (f : α → Int) :
    ∀ (l : List α) (i : Nat), jsFindIndex p l = some i →
      ∃ it, it ∈ l ∧ p it = true ∧
        (jsSplice1 l i).length + 1 = l.length ∧
        ((jsSplice1 l i).map f).sum = (l.map f).sum - f it ∧
        List.Sublist (jsSplice1 l i) l := by
  intro l
  induction l with
  | nil => intro i h; simp [jsFindIndex] at h
  | cons x xs ih =>
      intro i h
      by_cases hx : p x
      · have h0 : i = 0 := by
          simp [jsFindIndex, hx] at h
          omega
        subst h0
        refine ⟨x, List.mem_cons_self x xs, hx, ?_, ?_, ?_⟩
        · simp [jsSplice1]
        · simp [jsSplice1]
        · exact List.sublist_cons_self x xs
      · cases hrec : jsFindIndex p xs with
        | none => simp [jsFindIndex, hx, hrec] at h
        | some j =>
            have hi : i = j + 1 := by
              simp [jsFindIndex, hx, hrec] at h
              omega
            subst hi
            obtain ⟨it, hmem, hpit, hlen, hsum, hsub⟩ := ih j hrec
            refine ⟨it, List.mem_cons_of_mem x hmem, hpit, ?_, ?_, ?_⟩
            · simpa [jsSplice1] using hlen
            · simp only [jsSplice1, List.map_cons, List.sum_cons, hsum]
              ring
            · exact List.Sublist.cons₂ x hsub

theorem jsFindIndex_append_singleton {α : Type} (p : α → Bool) (l : List α)
    (x : α) (hl : jsFindIndex p l = none) (hx : p x = true) :
    jsFindIndex p (l ++ [x]) = some l.length := by
  induction l with
  | nil => simp [jsFindIndex, hx]
  | cons y ys ih =>
      by_cases hy : p y
      · simp [jsFindIndex, hy] at hl
      · cases hrec : jsFindIndex p ys with
        | none => simp [List.cons_append, jsFindIndex, hy, ih hrec]
        | some j => simp [jsFindIndex, hy, hrec] at hl

theorem jsSplice1_append_length {α : Type} (l : List α) (x : α) :
    jsSplice1 (l ++ [x]) l.length = l := by
  induction l with
  | nil => simp [jsSplice1]
  | cons y ys ih => simp [jsSplice1, ih]

theorem nodup_jsSplice1_no_match (N : String) :
    ∀ (l : List CartItem) (i : Nat),
      (l.map CartItem.tag_id).Nodup →
      jsFindIndex (fun it => it.tag_id == N) l = some i →
      ∀ y ∈ jsSplice1 l i, (y.tag_id == N) = false := by
  intro l
  induction l with
  | nil => intro i _ h; simp [jsFindIndex] at h
  | cons x xs ih =>
      intro i hnd h y hy
      simp only [List.map_cons, List.nodup_cons] at hnd
      by_cases hx : x.tag_id == N
      · have h0 : i = 0 := by
          simp [jsFindIndex, hx] at h
          omega
        subst h0
        simp only [jsSplice1] at hy
        have hxy : x.tag_id = N := by simpa using hx
        simp only [beq_eq_false_iff_ne, ne_eq]
        intro hyN
        apply hnd.1
        rw [hxy, ← hyN]
        exact List.mem_map_of_mem CartItem.tag_id hy
      · cases hrec : jsFindIndex (fun it => it.tag_id == N) xs with
        | none => simp [jsFindIndex, hx, hrec] at h
        | some j =>
            have hi : i = j + 1 := by
              simp [jsFindIndex, hx, hrec] at h
              omega
            subst hi
            simp only [jsSplice1, List.mem_cons] at hy
            rcases hy with rfl | hy
            · simpa using hx
            · exact ih j hnd.2 hrec y hy


/-! ### The cart-store invariant and its preservation -/

/-- An item's stored price agrees with the catalog entry for its tag. -/
def ItemConsistent (prods : String → Option Product) (it : CartItem) : Prop :=
  ∃ p, prods it.tag_id = some p ∧ it.price = p.price

/-- Well-formedness of one cart record: the running total is the sum of
the item prices, every item's price matches the catalog, and no tag
occurs in two items. -/
def CartInv (prods : String → Option Product) (c : Cart) : Prop :=
  c.total = (c.items.map CartItem.price).sum ∧
  (∀ it ∈ c.items, ItemConsistent prods it) ∧
  (c.items.map CartItem.tag_id).Nodup

/-- Every stored cart is well-formed. -/
def StateInv (st : ServerState) : Prop :=
  ∀ id c, st.carts id = some c → CartInv st.products c

theorem cartInv_empty (prods : String → Option Product) (id : String) (t : Nat) :
    CartInv prods { id := id, items := [], total := 0, createdAt := t } := by
  refine ⟨rfl, ?_, ?_⟩ <;> simp

theorem stateInv_setCart {st : ServerState} {id : String} {c : Cart}
    (h : StateInv st) (hc : CartInv st.products c) : StateInv (st.setCart id c) := by
  intro id2 c2 hc2
  by_cases hid : id2 = id
  · subst hid
    rw [setCart_self] at hc2
    cases hc2
    exact hc
  · rw [setCart_other st id c id2 hid] at hc2
    exact h id2 c2 hc2

theorem stateInv_initial : StateInv initialState := by
  intro id c hc
  simp [initialState] at hc

theorem getCart_products (st : ServerState) (id : String) (now : Nat) :
    (getCart st id now).2.products = st.products := by
  unfold getCart
  cases st.carts id <;> rfl

theorem getCart_inv {st : ServerState} (id : String) (now : Nat)
    (h : StateInv st) : StateInv (getCart st id now).2 := by
  unfold getCart
  cases hc : st.carts id with
  | some c => exact h
  | none => exact stateInv_setCart h (cartInv_empty _ _ _)

theorem getCart_fst (st : ServerState) (id : String) (now : Nat) :
    (getCart st id now).1 =
      (st.carts id).getD { id := id, items := [], total := 0, createdAt := now } := by
  unfold getCart
  cases st.carts id <;> rfl

theorem getCart_snd_lookup (st : ServerState) (id : String) (now : Nat) :
    (getCart st id now).2.carts id = some ((getCart st id now).1) := by
  unfold getCart
  cases hc : st.carts id with
  | some c => exact hc
  | none => simp [setCart_self]

theorem getCart_snd_other (st : ServerState) (id : String) (now : Nat)
    (k : String) (hk : k ≠ id) : (getCart st id now).2.carts k = st.carts k := by
  unfold getCart
  cases hc : st.carts id with
  | some c => rfl
  | none => simp [ServerState.setCart, hk]

theorem scanToggle_inv (st : ServerState) (N cartId : String) (now : Nat)
    (h : StateInv st) : StateInv (scanToggle st N cartId now).2 := by
  unfold scanToggle
  cases hp : st.products N with
  | none => exact h
  | some product =>
      simp only
      have hinv1 : StateInv (getCart st cartId now).2 := getCart_inv cartId now h
      have hcart : CartInv st.products (getCart st cartId now).1 := by
        have := hinv1 cartId _ (getCart_snd_lookup st cartId now)
        rwa [getCart_products] at this
      set cart := (getCart st cartId now).1 with hcdef
      obtain ⟨hsum, hcons, hnd⟩ := hcart
      cases hfind : jsFindIndex (fun item => item.tag_id == N) cart.items with
      | some idx =>
          simp only
          apply stateInv_setCart hinv1
          rw [getCart_products]
          obtain ⟨it, hmem, hpit, hlen, hsumerase, hsub⟩ :=
            jsFindIndex_some (fun item => item.tag_id == N) CartItem.price cart.items idx hfind
          have hitN : it.tag_id = N := by simpa using hpit
          obtain ⟨q, hq, hqp⟩ := hcons it hmem
          rw [hitN, hp] at hq
          cases hq
          refine ⟨?_, ?_, ?_⟩
          · simpa [hsum, hqp] using hsumerase.symm
          · intro y hy
            exact hcons y (hsub.mem hy)
          · exact hnd.sublist (hsub.map CartItem.tag_id)
      | none =>
          simp only
          apply stateInv_setCart hinv1
          rw [getCart_products]
          have hnomem : ∀ y ∈ cart.items, (y.tag_id == N) = false :=
            (jsFindIndex_eq_none _ cart.items).mp hfind
          refine ⟨?_, ?_, ?_⟩
          · simp [hsum]
          · intro y hy
            simp only [List.mem_append, List.mem_singleton] at hy
            rcases hy with hy | rfl
            · exact hcons y hy
            · exact ⟨product, by simpa using hp, rfl⟩
          · rw [List.map_append]
            simp only [List.map_cons, List.map_nil]
            rw [List.nodup_append]
            refine ⟨hnd, List.nodup_singleton N, ?_⟩
            intro a ha hb
            simp only [List.mem_singleton] at hb
            subst hb
            obtain ⟨y, hy, hyN⟩ := List.mem_map.mp ha
            have := hnomem y hy
            rw [hyN] at this
            simp at this

theorem scanToggle_products (st : ServerState) (N cartId : String) (now : Nat) :
    (scanToggle st N cartId now).2.products = st.products := by
  unfold scanToggle
  cases hp : st.products N with
  | none => rfl
  | some product =>
      simp only
      cases hfind : jsFindIndex (fun item => item.tag_id == N)
          (getCart st cartId now).1.items with
      | some idx => simp only [setCart_products, getCart_products]
      | none => simp only [setCart_products, getCart_products]

theorem scan_inv (t c : Option String) (now : Nat) (st : ServerState)
    (h : StateInv st) : StateInv (scan t c now st).2 := by
  unfold scan
  cases t with
  | none => exact h
  | some raw =>
      by_cases hr : raw = ""
      · simp only [hr, if_pos]
        exact h
      · simp only [hr, if_neg]
        exact scanToggle_inv st _ _ now h

theorem scan_products (t c : Option String) (now : Nat) (st : ServerState) :
    (scan t c now st).2.products = st.products := by
  unfold scan
  cases t with
  | none => rfl
  | some raw =>
      by_cases hr : raw = ""
      · simp [hr]
      · simp [hr, scanToggle_products]

theorem clearCart_inv (id : String) (now : Nat) (st : ServerState)
    (h : StateInv st) : StateInv (clearCart id now st).2 :=
  stateInv_setCart h (cartInv_empty _ _ _)

theorem clearCart_products (id : String) (now : Nat) (st : ServerState) :
    (clearCart id now st).2.products = st.products := rfl

theorem checkout_inv (id : String) (now : Nat) (st : ServerState)
    (h : StateInv st) : StateInv (checkout id now st).2 := by
  unfold checkout
  have hinv1 : StateInv (getCart st id now).2 := getCart_inv id now h
  by_cases hlen : (getCart st id now).1.items.length = 0
  · simp only [hlen, if_pos]
    exact hinv1
  · simp only [hlen, if_neg]
    exact stateInv_setCart hinv1 (by rw [getCart_products]; exact cartInv_empty _ _ _)

theorem checkout_products (id : String) (now : Nat) (st : ServerState) :
    (checkout id now st).2.products = st.products := by
  unfold checkout
  by_cases hlen : (getCart st id now).1.items.length = 0
  · simp only [hlen, if_pos]
    exact getCart_products st id now
  · simp only [hlen, if_neg, setCart_products]
    exact getCart_products st id now

theorem applyOp_inv (op : Op) (st : ServerState) (h : StateInv st) :
    StateInv (applyOp op st) := by
  cases op with
  | scanOp t c now => exact scan_inv t c now st h
  | getCartOp id now => exact getCart_inv id now h
  | clearOp id now => exact clearCart_inv id now st h
  | checkoutOp id now => exact checkout_inv id now st h

theorem applyOp_products (op : Op) (st : ServerState) :
    (applyOp op st).products = st.products := by
  cases op with
  | scanOp t c now => exact scan_products t c now st
  | getCartOp id now => exact getCart_products st id now
  | clearOp id now => exact clearCart_products id now st
  | checkoutOp id now => exact checkout_products id now st

theorem runOps_inv (ops : List Op) (st : ServerState) (h : StateInv st) :
    StateInv (runOps ops st) := by
  induction ops generalizing st with
  | nil => exact h
  | cons op rest ih => exact ih (applyOp op st) (applyOp_inv op st h)

theorem runOps_products (ops : List Op) (st : ServerState) :
    (runOps ops st).products = st.products := by
  induction ops generalizing st with
  | nil => rfl
  | cons op rest ih =>
      calc (runOps (op :: rest) st).products
          = (runOps rest (applyOp op st)).products := rfl
        _ = (applyOp op st).products := ih (applyOp op st)
        _ = st.products := applyOp_products op st

theorem reachable_inv {st : ServerState} (h : Reachable st) : StateInv st := by
  obtain ⟨ops, rfl⟩ := h
  exact runOps_inv ops initialState stateInv_initial

theorem reachable_products {st : ServerState} (h : Reachable st) :
    st.products = initialProducts := by
  obtain ⟨ops, rfl⟩ := h
  exact runOps_products ops initialState


/-! ### Frame lemmas: operations touch only their own cart entry -/

theorem scanToggle_carts_other (st : ServerState) (N cartId : String) (now : Nat)
    (k : String) (hk : k ≠ cartId) :
    (scanToggle st N cartId now).2.carts k = st.carts k := by
  unfold scanToggle
  cases hp : st.products N with
  | none => rfl
  | some product =>
      simp only
      cases hfind : jsFindIndex (fun item => item.tag_id == N)
          (getCart st cartId now).1.items with
      | some idx =>
          simp only
          rw [setCart_other _ _ _ _ hk]
          exact getCart_snd_other st cartId now k hk
      | none =>
          simp only
          rw [setCart_other _ _ _ _ hk]
          exact getCart_snd_other st cartId now k hk

theorem scan_carts_other (t c : Option String) (now : Nat) (st : ServerState)
    (k : String) (hk : k ≠ c.getD "default") :
    (scan t c now st).2.carts k = st.carts k := by
  unfold scan
  cases t with
  | none => rfl
  | some raw =>
      by_cases hr : raw = ""
      · simp [hr]
      · simp only [hr, if_neg]
        exact scanToggle_carts_other st _ _ now k hk

theorem checkout_carts_other (id : String) (now : Nat) (st : ServerState)
    (k : String) (hk : k ≠ id) :
    (checkout id now st).2.carts k = st.carts k := by
  unfold checkout
  by_cases hlen : (getCart st id now).1.items.length = 0
  · simp only [hlen, if_pos]
    exact getCart_snd_other st id now k hk
  · rw [if_neg hlen]
    simp only
    rw [setCart_other _ _ _ _ hk]
    exact getCart_snd_other st id now k hk

/-- The simulate handler's inline toggle is the same computation as the
scan handler's toggle core at cart id `"default"`. -/
theorem simulate_eq_scanToggle (tagId : String) (now : Nat) (st : ServerState) :
    simulate tagId now st = scanToggle st (normalizeTag tagId) "default" now := by
  rfl

/-- The toggle core never answers the 400 InvalidInput error. -/
theorem scanToggle_fst_ne_invalid (st : ServerState) (N cartId : String) (now : Nat) :
    (scanToggle st N cartId now).1 ≠ ScanResult.invalidInput := by
  unfold scanToggle
  cases hp : st.products N with
  | none => simp
  | some product =>
      simp only
      cases hfind : jsFindIndex (fun item => item.tag_id == N)
          (getCart st cartId now).1.items with
      | some idx => simp
      | none => simp

/-- Uppercasing with `Char.toUpper` fixes whitespace characters. -/
theorem toUpper_whitespace {c : Char} (h : c.isWhitespace = true) :
    Char.toUpper c = c := by
  have h2 : ((c = ' ' ∨ c = '\t') ∨ c = '\r') ∨ c = '\n' := by
    simpa [Char.isWhitespace] using h
  rcases h2 with ((rfl | rfl) | rfl) | rfl <;> decide


/-! ### Claim theorems -/

/-- C1: in every cart reachable from the initial empty cart store by any
sequence of scan, cart-retrieval, clear and checkout operations, the
`total` field equals the sum of the `price` fields of the items list. -/
theorem claim_C1_total_eq_sum_prices (st : ServerState) (h : Reachable st)
    (id : String) (c : Cart) (hc : st.carts id = some c) :
    c.total = (c.items.map CartItem.price).sum :=
  (reachable_inv h id c hc).1

/-- Witness for C1: the invariant instantiated after one scan of Milk into
cart `c1`. -/
theorem claim_C1_total_eq_sum_prices_witness :
    ({ id := "c1",
       items := [{ tag_id := "A1B2C3D4", name := "Milk (1L)", price := 40,
                   category := "Dairy", scannedAt := 5 }],
       total := 40, createdAt := 5 } : Cart).total =
      (({ id := "c1",
          items := [{ tag_id := "A1B2C3D4", name := "Milk (1L)", price := 40,
                      category := "Dairy", scannedAt := 5 }],
          total := 40, createdAt := 5 } : Cart).items.map CartItem.price).sum :=
  claim_C1_total_eq_sum_prices
    (runOps [Op.scanOp (some "a1b2c3d4") (some "c1") 5] initialState)
    ⟨[Op.scanOp (some "a1b2c3d4") (some "c1") 5], rfl⟩
    "c1" _ (by decide)

/-- C9: in every reachable cart, each normalized tag identifier occurs in
at most one item of the items list. -/
theorem claim_C9_tags_nodup (st : ServerState) (h : Reachable st)
    (id : String) (c : Cart) (hc : st.carts id = some c) :
    (c.items.map CartItem.tag_id).Nodup :=
  (reachable_inv h id c hc).2.2

/-- Witness for C9 after scanning Milk and Bread into cart `c1`. -/
theorem claim_C9_tags_nodup_witness :
    (({ id := "c1",
        items := [{ tag_id := "A1B2C3D4", name := "Milk (1L)", price := 40,
                    category := "Dairy", scannedAt := 5 },
                  { tag_id := "11223344", name := "Bread (White)", price := 30,
                    category := "Bakery", scannedAt := 6 }],
        total := 70, createdAt := 5 } : Cart).items.map CartItem.tag_id).Nodup :=
  claim_C9_tags_nodup
    (runOps [Op.scanOp (some "a1b2c3d4") (some "c1") 5,
             Op.scanOp (some "11223344") (some "c1") 6] initialState)
    ⟨[Op.scanOp (some "a1b2c3d4") (some "c1") 5,
      Op.scanOp (some "11223344") (some "c1") 6], rfl⟩
    "c1" _ (by decide)

/-- C2: checkout on a stored cart with at least one item succeeds with a
receipt snapshotting the pre-checkout items, total and item count, and
afterwards the store maps the cart id to an empty cart with total 0. -/
theorem claim_C2_checkout_nonempty (st : ServerState) (cartId : String)
    (c : Cart) (hc : st.carts cartId = some c) (hne : c.items ≠ []) (now : Nat) :
    (checkout cartId now st).1 =
      CheckoutResult.ok
        { receiptId := now, items := c.items, total := c.total,
          itemCount := c.items.length, checkoutTime := now } ∧
    (checkout cartId now st).2.carts cartId =
      some { id := cartId, items := [], total := 0, createdAt := now } := by
  have hlen : ¬ c.items.length = 0 := by
    simpa [List.length_eq_zero] using hne
  simp [checkout, getCart, hc, hlen, setCart_self]

/-- Witness for C2: checking out cart `c1` holding one Milk item. -/
theorem claim_C2_checkout_nonempty_witness :
    (checkout "c1" 7 (runOps [Op.scanOp (some "a1b2c3d4") (some "c1") 5] initialState)).1 =
      CheckoutResult.ok
        { receiptId := 7,
          items := [{ tag_id := "A1B2C3D4", name := "Milk (1L)", price := 40,
                      category := "Dairy", scannedAt := 5 }],
          total := 40, itemCount := 1, checkoutTime := 7 } ∧
    (checkout "c1" 7 (runOps [Op.scanOp (some "a1b2c3d4") (some "c1") 5] initialState)).2.carts "c1" =
      some { id := "c1", items := [], total := 0, createdAt := 7 } :=
  claim_C2_checkout_nonempty
    (runOps [Op.scanOp (some "a1b2c3d4") (some "c1") 5] initialState) "c1"
    { id := "c1",
      items := [{ tag_id := "A1B2C3D4", name := "Milk (1L)", price := 40,
                  category := "Dairy", scannedAt := 5 }],
      total := 40, createdAt := 5 }
    (by decide) (by decide) 7

/-- C4 counterexample: for the absent cart id `c1` the checked cart has
zero items and checkout answers 400 EmptyCart, yet the cart store is
changed — a fresh entry is created under `c1`. -/
theorem claim_C4_counterexample :
    (getCart initialState "c1" 0).1.items = [] ∧
    (checkout "c1" 0 initialState).1 = CheckoutResult.emptyCart ∧
    initialState.carts "c1" = none ∧
    (checkout "c1" 0 initialState).2.carts "c1" =
      some { id := "c1", items := [], total := 0, createdAt := 0 } := by
  decide

/-- C4 (amended): checkout on a cart with zero items fails with EmptyCart
(400); when the cart id exists in the store the store is left entirely
unchanged, and when it is absent the only change is that a fresh empty
cart entry is created under that id (all other entries unchanged). -/
theorem claim_C4_checkout_empty (st : ServerState) (cartId : String) (now : Nat)
    (hempty : ∀ c, st.carts cartId = some c → c.items = []) :
    (checkout cartId now st).1 = CheckoutResult.emptyCart ∧
    (∀ k, k ≠ cartId → (checkout cartId now st).2.carts k = st.carts k) ∧
    (∀ c, st.carts cartId = some c → (checkout cartId now st).2 = st) ∧
    (st.carts cartId = none →
      (checkout cartId now st).2.carts cartId =
        some { id := cartId, items := [], total := 0, createdAt := now }) := by
  cases hc : st.carts cartId with
  | some c =>
      have hitems : c.items = [] := hempty c hc
      have hlen : c.items.length = 0 := by simp [hitems]
      refine ⟨?_, ?_, ?_, ?_⟩
      · simp [checkout, getCart, hc, hlen]
      · intro k hk
        simp [checkout, getCart, hc, hlen]
      · intro c2 hc2
        simp [checkout, getCart, hc, hlen]
      · intro hnone
        simp at hnone
  | none =>
      refine ⟨?_, ?_, ?_, ?_⟩
      · simp [checkout, getCart, hc]
      · intro k hk
        simp [checkout, getCart, hc, ServerState.setCart, hk]
      · intro c2 hc2
        simp at hc2
      · intro _
        simp [checkout, getCart, hc, setCart_self]

/-- Witness for C4 (amended): checkout of the existing empty cart left by
a clear leaves the store unchanged. -/
theorem claim_C4_checkout_empty_witness :
    (checkout "c1" 3 (runOps [Op.clearOp "c1" 2] initialState)).1 =
      CheckoutResult.emptyCart ∧
    (checkout "c1" 3 (runOps [Op.clearOp "c1" 2] initialState)).2 =
      runOps [Op.clearOp "c1" 2] initialState := by
  have h := claim_C4_checkout_empty (runOps [Op.clearOp "c1" 2] initialState) "c1" 3
    (by
      intro c hc
      have h0 : (runOps [Op.clearOp "c1" 2] initialState).carts "c1" =
          some { id := "c1", items := [], total := 0, createdAt := 2 } := by decide
      rw [h0] at hc
      cases hc
      rfl)
  exact ⟨h.1, h.2.2.1 { id := "c1", items := [], total := 0, createdAt := 2 } (by decide)⟩

/-- C5 counterexample: the empty tag has a normalized form absent from the
catalog, yet scan answers 400 InvalidInput rather than 404 UnknownProduct. -/
theorem claim_C5_counterexample :
    initialProducts (normalizeTag "") = none ∧
    (scan (some "") (some "c1") 0 initialState).1 = ScanResult.invalidInput ∧
    ¬ (scan (some "") (some "c1") 0 initialState).1 = ScanResult.unknownProduct := by
  decide

/-- C5 (amended): for every non-empty tag whose normalized form is absent
from the catalog, scan fails with UnknownProduct (404) and leaves the
whole state — every cart entry — unchanged; the empty (or missing) tag
instead fails earlier with InvalidInput (400), also without touching any
cart. -/
theorem claim_C5_unknown_product (raw : String) (hraw : raw ≠ "")
    (c : Option String) (now : Nat) (st : ServerState)
    (habs : st.products (normalizeTag raw) = none) :
    (scan (some raw) c now st).1 = ScanResult.unknownProduct ∧
    (scan (some raw) c now st).2 = st := by
  simp [scan, hraw, scanToggle, habs]

/-- Witness for C5 (amended) at the spec's example tag `ZZZZZZZZ`. -/
theorem claim_C5_unknown_product_witness :
    (scan (some "ZZZZZZZZ") (some "c1") 0 initialState).1 =
      ScanResult.unknownProduct :=
  (claim_C5_unknown_product "ZZZZZZZZ" (by decide) (some "c1") 0 initialState
    (by decide)).1

/-- C7: for every (non-empty, as any path segment is) tag and every state,
simulate produces exactly the result and state transition of scan invoked
with that tag and cart_id `"default"`. -/
theorem claim_C7_simulate_refines_scan (tagId : String) (h : tagId ≠ "")
    (now : Nat) (st : ServerState) :
    simulate tagId now st = scan (some tagId) (some "default") now st := by
  simp [simulate, scan, scanToggle, h]

/-- Witness for C7 at tag `deadbeef`. -/
theorem claim_C7_simulate_refines_scan_witness :
    simulate "deadbeef" 9 initialState =
      scan (some "deadbeef") (some "default") 9 initialState :=
  claim_C7_simulate_refines_scan "deadbeef" (by decide) 9 initialState

/-- C8: clear unconditionally replaces the entry with a fresh empty cart
(total 0, new createdAt), returns it, never fails, and every other entry
is untouched; for an absent id this is exactly creating an empty cart. -/
theorem claim_C8_clear_unconditional (cartId : String) (now : Nat)
    (st : ServerState) :
    (clearCart cartId now st).2.carts cartId =
      some { id := cartId, items := [], total := 0, createdAt := now } ∧
    (clearCart cartId now st).1 =
      { id := cartId, items := [], total := 0, createdAt := now } ∧
    (∀ k, k ≠ cartId → (clearCart cartId now st).2.carts k = st.carts k) := by
  refine ⟨setCart_self st cartId _, rfl, ?_⟩
  intro k hk
  exact setCart_other st cartId _ k hk

/-- Witness for C8: clearing `c1` does not touch entry `c9`. -/
theorem claim_C8_clear_unconditional_witness :
    (clearCart "c1" 3 initialState).2.carts "c9" = initialState.carts "c9" :=
  (claim_C8_clear_unconditional "c1" 3 initialState).2.2 "c9" (by decide)

/-- C10: every handler leaves the cart entries of all ids other than its
own cart id unchanged (scan uses the body cart id defaulted to
`"default"`, simulate is fixed to `"default"`), and no handler ever
changes the `products` catalog. -/
theorem claim_C10_frame (st : ServerState) :
    (∀ t c now k, k ≠ c.getD "default" →
        (scan t c now st).2.carts k = st.carts k) ∧
    (∀ t c now, (scan t c now st).2.products = st.products) ∧
    (∀ id now k, k ≠ id → (getCartRoute id now st).2.carts k = st.carts k) ∧
    (∀ id now, (getCartRoute id now st).2.products = st.products) ∧
    (∀ id now k, k ≠ id → (clearCart id now st).2.carts k = st.carts k) ∧
    (∀ id now, (clearCart id now st).2.products = st.products) ∧
    (∀ id now k, k ≠ id → (checkout id now st).2.carts k = st.carts k) ∧
    (∀ id now, (checkout id now st).2.products = st.products) ∧
    (∀ tg now k, k ≠ "default" → (simulate tg now st).2.carts k = st.carts k) ∧
    (∀ tg now, (simulate tg now st).2.products = st.products) := by
  refine ⟨?_, ?_, ?_, ?_, ?_, ?_, ?_, ?_, ?_, ?_⟩
  · intro t c now k hk
    exact scan_carts_other t c now st k hk
  · intro t c now
    exact scan_products t c now st
  · intro id now k hk
    exact getCart_snd_other st id now k hk
  · intro id now
    exact getCart_products st id now
  · intro id now k hk
    exact setCart_other st id _ k hk
  · intro id now
    exact rfl
  · intro id now k hk
    exact checkout_carts_other id now st k hk
  · intro id now
    exact checkout_products id now st
  · intro tg now k hk
    rw [simulate_eq_scanToggle]
    exact scanToggle_carts_other st _ _ now k hk
  · intro tg now
    rw [simulate_eq_scanToggle]
    exact scanToggle_products st _ _ now

/-- Witness for C10: scanning Milk into `c1` leaves entry `c2` alone. -/
theorem claim_C10_frame_witness :
    (scan (some "A1B2C3D4") (some "c1") 0 initialState).2.carts "c2" =
      initialState.carts "c2" :=
  (claim_C10_frame initialState).1 (some "A1B2C3D4") (some "c1") 0 "c2" (by decide)


/-- A whitespace-only string normalizes to the empty string. -/
theorem normalizeTag_whitespace (raw : String)
    (hws : ∀ ch ∈ raw.data, ch.isWhitespace = true) : normalizeTag raw = "" := by
  have hnil : (raw.data.map Char.toUpper).filter (fun c => !c.isWhitespace) = [] := by
    rw [List.filter_eq_nil_iff]
    intro a ha
    obtain ⟨b, hb, rfl⟩ := List.mem_map.mp ha
    have hbw := hws b hb
    rw [toUpper_whitespace hbw]
    simp [hbw]
  unfold normalizeTag jsStripWhitespace jsToUpperCase
  rw [show (String.mk (raw.data.map Char.toUpper)).data = raw.data.map Char.toUpper from rfl,
    hnil]

/-- C6: normalization maps a tag to its uppercase, whitespace-free form
(agreeing with the spec-worded transform); scan answers InvalidInput (400)
exactly when tag_id is missing or the empty string; a non-empty
whitespace-only tag instead reaches the catalog lookup and fails with
UnknownProduct (404); and the normalized key is the item identity: an
added item carries the normalized tag. -/
theorem claim_C6_normalization_guards :
    (∀ s, normalizeTag s = specNormalizeTag s) ∧
    (∀ c now st, (scan none c now st).1 = ScanResult.invalidInput) ∧
    (∀ raw c now st,
      (scan (some raw) c now st).1 = ScanResult.invalidInput ↔ raw = "") ∧
    (∀ raw, raw ≠ "" → (∀ ch ∈ raw.data, ch.isWhitespace = true) →
      ∀ c now st, st.products "" = none →
        (scan (some raw) c now st).1 = ScanResult.unknownProduct) ∧
    (∀ raw c now st r,
      (scan (some raw) c now st).1 = ScanResult.ok r →
      r.action = ScanAction.added →
      r.cart.items.getLast?.map CartItem.tag_id = some (normalizeTag raw)) := by
  refine ⟨?_, ?_, ?_, ?_, ?_⟩
  · intro s
    rfl
  · intro c now st
    rfl
  · intro raw c now st
    constructor
    · intro h
      by_contra hne
      have h2 : (scanToggle st (normalizeTag raw) (c.getD "default") now).1 =
          ScanResult.invalidInput := by
        simpa [scan, hne] using h
      exact scanToggle_fst_ne_invalid st _ _ now h2
    · intro h
      rw [h]
      rfl
  · intro raw hne hws c now st hprod
    have hn : normalizeTag raw = "" := normalizeTag_whitespace raw hws
    simp [scan, hne, scanToggle, hn, hprod]
  · intro raw c now st r hok hadd
    by_cases hne : raw = ""
    · rw [hne] at hok
      simp [scan] at hok
    · have hok2 : (scanToggle st (normalizeTag raw) (c.getD "default") now).1 =
          ScanResult.ok r := by
        simpa [scan, hne] using hok
      cases hp : st.products (normalizeTag raw) with
      | none => simp [scanToggle, hp] at hok2
      | some product =>
          cases hfind : jsFindIndex (fun item => item.tag_id == normalizeTag raw)
              (getCart st (c.getD "default") now).1.items with
          | some idx =>
              simp only [scanToggle, hp, hfind] at hok2
              injection hok2 with h
              rw [← h] at hadd
              simp at hadd
          | none =>
              simp only [scanToggle, hp, hfind] at hok2
              injection hok2 with h
              rw [← h]
              simp [List.getLast?_concat]

/-- Witness for C6: the whitespace-only tag `" "` is not InvalidInput but
fails catalog lookup with UnknownProduct. -/
theorem claim_C6_normalization_guards_witness :
    (scan (some " ") (some "c1") 0 initialState).1 = ScanResult.unknownProduct :=
  claim_C6_normalization_guards.2.2.2.1 " " (by decide) (by decide)
    (some "c1") 0 initialState (by decide)

/-- C3: for every reachable store and every tag whose normalized form is
in the catalog, scanning the same tag twice in a row with the same cart id
returns the cart's total and its item count to their values before the
first scan. -/
theorem claim_C3_scan_twice_restores (st : ServerState) (hreach : Reachable st)
    (raw cartId : String) (product : Product)
    (hcat : st.products (normalizeTag raw) = some product) (t1 t2 : Nat) :
    cartTotal (scan (some raw) (some cartId) t2
      ((scan (some raw) (some cartId) t1 st).2)).2 cartId = cartTotal st cartId ∧
    cartCount (scan (some raw) (some cartId) t2
      ((scan (some raw) (some cartId) t1 st).2)).2 cartId = cartCount st cartId := by
  have hraw : raw ≠ "" := by
    intro h
    rw [h, show normalizeTag "" = "" from by decide, reachable_products hreach,
      show initialProducts "" = none from by decide] at hcat
    cases hcat
  cases hc : st.carts cartId with
  | none =>
      refine ⟨?_, ?_⟩ <;>
        simp [scan, hraw, scanToggle, hcat, getCart, hc, jsFindIndex,
          ServerState.setCart, jsSplice1, cartTotal, cartCount]
  | some c0 =>
      cases hfind1 : jsFindIndex (fun item => item.tag_id == normalizeTag raw)
          c0.items with
      | none =>
          refine ⟨?_, ?_⟩ <;>
            simp [scan, hraw, scanToggle, hcat, getCart, hc, hfind1,
              ServerState.setCart, cartTotal, cartCount,
              jsFindIndex_append_singleton, jsSplice1_append_length]
      | some i =>
          have hnd : (c0.items.map CartItem.tag_id).Nodup :=
            (reachable_inv hreach cartId c0 hc).2.2
          have hfind2 : jsFindIndex (fun item => item.tag_id == normalizeTag raw)
              (jsSplice1 c0.items i) = none :=
            (jsFindIndex_eq_none _ _).mpr
              (nodup_jsSplice1_no_match (normalizeTag raw) c0.items i hnd hfind1)
          obtain ⟨it, hmem, hpit, hlen, hsum, hsub⟩ :=
            jsFindIndex_some (fun item => item.tag_id == normalizeTag raw)
              CartItem.price c0.items i hfind1
          refine ⟨?_, ?_⟩ <;>
            simp [scan, hraw, scanToggle, hcat, getCart, hc, hfind1, hfind2,
              ServerState.setCart, cartTotal, cartCount, hlen]

/-- Witness for C3: double-scanning Milk into cart `c1` from the initial
state restores total 0 and count 0. -/
theorem claim_C3_scan_twice_restores_witness :
    cartTotal (scan (some "a1b2c3d4") (some "c1") 2
      ((scan (some "a1b2c3d4") (some "c1") 1 initialState).2)).2 "c1" =
      cartTotal initialState "c1" ∧
    cartCount (scan (some "a1b2c3d4") (some "c1") 2
      ((scan (some "a1b2c3d4") (some "c1") 1 initialState).2)).2 "c1" =
      cartCount initialState "c1" :=
  claim_C3_scan_twice_restores initialState ⟨[], rfl⟩ "a1b2c3d4" "c1"
    { name := "Milk (1L)", price := 40, category := "Dairy" } (by decide) 1 2

end ShoppingCart
